import Mathlib

/-
Verification of the LLM infrastructure layer of the Socratic-Method backend.

This file gives a shallow embedding, in Lean 4, of the parts of the Python
backend that the specification talks about:

  * `backend/app/providers/base.py`    — `RateLimit`, `AsyncTokenBucket`,
    `ProviderAdapter.cache_key`, `ProviderAdapter.execute`;
  * `backend/app/services/tools.py`    — `ToolDefinition`, `ToolRegistry`
    (register / ensure_budget / remaining_budget) and `default_registry`;
  * `backend/app/models/llm.py`        — `MessageRole`, `DeliberationFrame`,
    `PromptMessage` (to_dict / render_for_provider), `Prompt.compile`;
  * `backend/app/providers/anthropic_adapter.py` — `create_payload`;
  * `backend/app/services/llm_router.py` — the non-streaming cache path of
    `LLMRouter.aroute`, `InMemoryCache` and `_coerce_response`.

Python dicts are modelled as insertion-ordered association lists.  Python
floats appear in two ways: the parametric claims (budget check structure,
rate-limiter shape, remaining-budget formulas) leave the arithmetic
uninterpreted, and there exact rationals (ℚ) are a faithful carrier; the
end-to-end budget-exhaustion run, whose outcome depends on accumulated
binary64 rounding, is modelled by an exact IEEE-754 binary64 simulation
(`F64` below), validated against classic binary64 identities.
-/

/-! ## JSON values (Python dict / list / str / number trees) -/

inductive Json where
  | null : Json
  | bool : Bool → Json
  | num : ℚ → Json
  | str : String → Json
  | arr : List Json → Json
  | obj : List (String × Json) → Json

/-! ## Association-list primitives for Python dicts -/

/-- Python `d.get(k)`: first binding of `k`, if any. -/
def lookupA {κ α : Type} [DecidableEq κ] : List (κ × α) → κ → Option α
  | [], _ => none
  | (k₀, v) :: rest, k => if k₀ = k then some v else lookupA rest k

/-- Python `d.get(k, default)`. -/
def lookupD {κ α : Type} [DecidableEq κ] (l : List (κ × α)) (k : κ) (d : α) : α :=
  (lookupA l k).getD d

/-- Python `d[k] = v`: replace in place, or append a new binding. -/
def setA {κ α : Type} [DecidableEq κ] : List (κ × α) → κ → α → List (κ × α)
  | [], k, v => [(k, v)]
  | (k₀, v₀) :: rest, k, v =>
      if k₀ = k then (k₀, v) :: rest else (k₀, v₀) :: setA rest k v

/-- Python `d.setdefault(k, v)` (the resulting dict). -/
def setdefaultA {κ α : Type} [DecidableEq κ] (l : List (κ × α)) (k : κ) (v : α) :
    List (κ × α) :=
  match lookupA l k with
  | some _ => l
  | none => l ++ [(k, v)]

/-- Python `d.update(other)`. -/
def updateA {κ α : Type} [DecidableEq κ] (l : List (κ × α)) : List (κ × α) → List (κ × α)
  | [] => l
  | (k, v) :: rest => updateA (setA l k v) rest

/-! ## `json.dumps(..., sort_keys=True)` (providers/base.py `cache_key`)

The encoder walks the value tree; objects are emitted with their items sorted
by key, exactly as `json.dumps(obj, sort_keys=True)` does (CPython sorts
`dct.items()`, and since dict keys are unique the comparison never reaches
the values, so sorting by key alone is the same order).  In the model we
encode each value first and then sort the (key, encoded-value) pairs by key;
as the sort compares keys only, this commutes with the sort-then-encode
order of the source.  The rendering of numbers is abstracted by any
value-determined encoding. -/

/-- Escaping of one character inside a JSON string literal. -/
def escapeChar (c : Char) : String :=
  if c = '"' then "\\\""
  else if c = '\\' then "\\\\"
  else if c = '\n' then "\\n"
  else if c = '\t' then "\\t"
  else if c = '\r' then "\\r"
  else String.singleton c

/-- JSON string literal encoding. -/
def encodeString (s : String) : String :=
  "\"" ++ String.join (s.toList.map escapeChar) ++ "\""

/-- Rendering of a JSON number (value-determined; stands for the CPython
repr of ints and floats, which is a function of the numeric value). -/
def encodeNum (q : ℚ) : String :=
  if q.den = 1 then toString q.num else toString q.num ++ "/" ++ toString q.den

/-- Comparison used to sort object items: by key. -/
def entryKeyLe {α : Type} (a b : String × α) : Bool := a.1 ≤ b.1

mutual

/-- Model of `json.dumps(value, sort_keys=True)` with the default Python
separators. -/
def Json.dumps : Json → String
  | .null => "null"
  | .bool true => "true"
  | .bool false => "false"
  | .num q => encodeNum q
  | .str s => encodeString s
  | .arr xs => "[" ++ String.intercalate ", " (dumpsList xs) ++ "]"
  | .obj kvs =>
      "\x7b" ++ String.intercalate ", "
        (((dumpsEntries kvs).mergeSort entryKeyLe).map
          (fun kv => encodeString kv.1 ++ ": " ++ kv.2)) ++ "\x7d"

/-- Encodings of the elements of a JSON array. -/
def dumpsList : List Json → List String
  | [] => []
  | x :: xs => Json.dumps x :: dumpsList xs

/-- Keys paired with the encodings of their values. -/
def dumpsEntries : List (String × Json) → List (String × String)
  | [] => []
  | (k, v) :: xs => (k, Json.dumps v) :: dumpsEntries xs

end

/-- `ProviderAdapter.cache_key` (providers/base.py): the SHA-256 hex digest of
the deterministic (keys-sorted) JSON encoding of the dict holding the model
identifier and the fully built payload.  The digest function itself is a
parameter: every theorem below holds for an arbitrary function, in particular
for SHA-256. -/
def cache_key (sha256_hex : String → String) (model : String) (payload : Json) : String :=
  sha256_hex (Json.dumps (Json.obj [("model", Json.str model), ("payload", payload)]))

/-! ## Tool registry (services/tools.py) -/

/-- `ToolDefinition` dataclass. -/
structure ToolDefinition where
  name : String
  description : String
  json_schema : Json
  cost_per_call : ℚ
  global_budget : Option ℚ
  per_session_budget : Option ℚ
  metadata : List (String × Json)

/-- Failures raised by the registry: `KeyError` from `get`, or
`ToolBudgetExceeded` from `ensure_budget` (the two message shapes carry the
offending prospective total and the ceiling). -/
inductive ToolError where
  | unknownTool : String → ToolError
  | globalBudgetExceeded : String → ℚ → ℚ → ToolError
  | sessionBudgetExceeded : String → ℚ → ℚ → ToolError

/-- `ToolRegistry.__init__`: dicts for definitions, global consumption and
per-(tool, session) consumption. -/
structure ToolRegistry where
  definitions : List (String × ToolDefinition)
  global_consumption : List (String × ℚ)
  session_consumption : List ((String × String) × ℚ)

namespace ToolRegistry

/-- `ToolRegistry.register`: store the definition under its name and
`setdefault` its global consumption to 0.0. -/
def register (r : ToolRegistry) (d : ToolDefinition) : ToolRegistry :=
  { r with
    definitions := setA r.definitions d.name d,
    global_consumption := setdefaultA r.global_consumption d.name 0 }

/-- `ToolRegistry.get`: raises `KeyError` for an unknown tool. -/
def get (r : ToolRegistry) (name : String) : Except ToolError ToolDefinition :=
  match lookupA r.definitions name with
  | some d => Except.ok d
  | none => Except.error (ToolError.unknownTool name)

/-- Python `budget is not None and total > budget`, returning the ceiling
when it is violated. -/
def budgetViolation (budget : Option ℚ) (total : ℚ) : Option ℚ :=
  match budget with
  | none => none
  | some b => if b < total then some b else none

/-- `ToolRegistry.ensure_budget`.  A raised exception is modelled as the pair
(unchanged registry, some error); success is (updated registry, none), which
mirrors raising before any assignment to the counters. -/
def ensure_budget (r : ToolRegistry) (name : String) (session_id : String)
    (cost : Option ℚ) : ToolRegistry × Option ToolError :=
  match r.get name with
  | Except.error e => (r, some e)
  | Except.ok defn =>
      let computed_cost := cost.getD defn.cost_per_call
      let key := (name, session_id)
      let total := lookupD r.global_consumption name 0 + computed_cost
      match budgetViolation defn.global_budget total with
      | some b => (r, some (ToolError.globalBudgetExceeded name total b))
      | none =>
          let session_total := lookupD r.session_consumption key 0 + computed_cost
          match budgetViolation defn.per_session_budget session_total with
          | some b => (r, some (ToolError.sessionBudgetExceeded name session_total b))
          | none =>
              ({ r with
                  global_consumption := setA r.global_consumption name total,
                  session_consumption := setA r.session_consumption key session_total },
               none)

/-- `ToolRegistry.remaining_budget`: a read-only query returning the
remaining global and session budgets (`none` meaning no ceiling). -/
def remaining_budget (r : ToolRegistry) (name : String) (session_id : String) :
    Except ToolError (Option ℚ × Option ℚ) :=
  match r.get name with
  | Except.error e => Except.error e
  | Except.ok defn =>
      Except.ok
        (defn.global_budget.map
            (fun b => max (b - lookupD r.global_consumption name 0) 0),
         defn.per_session_budget.map
            (fun b => max (b - lookupD r.session_consumption (name, session_id) 0) 0))

end ToolRegistry

/-- The `search` tool registered by `default_registry`. -/
def searchTool : ToolDefinition :=
  { name := "search"
    description := "Perform web search across curated sources."
    json_schema := Json.obj
      [("type", Json.str "object"),
       ("properties", Json.obj
         [("query", Json.obj [("type", Json.str "string"),
                              ("description", Json.str "Search query")]),
          ("top_k", Json.obj [("type", Json.str "integer"),
                              ("minimum", Json.num 1),
                              ("maximum", Json.num 10),
                              ("default", Json.num 5)])]),
       ("required", Json.arr [Json.str "query"])]
    cost_per_call := 0.01
    global_budget := some 10
    per_session_budget := some 1
    metadata := [] }

/-- The `alphavantage` tool registered by `default_registry`. -/
def alphavantageTool : ToolDefinition :=
  { name := "alphavantage"
    description := "Query AlphaVantage financial time-series data."
    json_schema := Json.obj
      [("type", Json.str "object"),
       ("properties", Json.obj
         [("symbol", Json.obj [("type", Json.str "string")]),
          ("function", Json.obj [("type", Json.str "string"),
                                 ("enum", Json.arr [Json.str "TIME_SERIES_DAILY",
                                                    Json.str "TIME_SERIES_INTRADAY"])]),
          ("interval", Json.obj [("type", Json.str "string"),
                                 ("default", Json.str "5min")])]),
       ("required", Json.arr [Json.str "symbol", Json.str "function"])]
    cost_per_call := 0.05
    global_budget := some 25
    per_session_budget := some 2
    metadata := [] }

/-- The `quant_sandbox` tool registered by `default_registry`. -/
def quantSandboxTool : ToolDefinition :=
  { name := "quant_sandbox"
    description := "Execute quantitative experiments in a sandboxed runtime."
    json_schema := Json.obj
      [("type", Json.str "object"),
       ("properties", Json.obj
         [("script", Json.obj [("type", Json.str "string"),
                               ("description", Json.str "Python script to execute")]),
          ("timeout", Json.obj [("type", Json.str "number"),
                                ("default", Json.num 30)]),
          ("memory_limit", Json.obj [("type", Json.str "number"),
                                     ("default", Json.num 512)])]),
       ("required", Json.arr [Json.str "script"])]
    cost_per_call := 0.5
    global_budget := some 50
    per_session_budget := some 5
    metadata := [("sandbox", Json.bool true)] }

/-- `default_registry()`: a fresh registry with the three built-in tools. -/
def default_registry : ToolRegistry :=
  (({ definitions := [], global_consumption := [], session_consumption := [] :
      ToolRegistry }).register searchTool).register alphavantageTool
    |>.register quantSandboxTool

/-! ## Exact binary64 arithmetic and the end-to-end budget run

The budget counters in services/tools.py are Python floats (IEEE-754
binary64).  The parametric claims leave the arithmetic uninterpreted, so ℚ
is a faithful carrier for them, but the end-to-end run of the budget claim
accumulates a thousand additions of 0.01, and rounding decides which
ceiling trips first: in binary64 one hundred accumulated additions of 0.01
reach 1 + 3·2⁻⁵² > 1.0, so a session hosting 100 calls trips the session
ceiling, while the global sum of 1000 additions stays below 10.0.  The
model below simulates binary64 exactly: a value is an integer mantissa
times a power of two, addition takes the exact dyadic sum and rounds it to
53 significant bits with round-to-nearest, ties-to-even, and comparisons
are exact.  Representations are not normalized, but every operation is
value-exact, and all values of the run lie far inside the normal range (no
overflow, no subnormals).  Validation theorems below check the simulator
against classic binary64 identities. -/

/-- A finite binary64 value m·2^e (value-exact, not necessarily
normalized). -/
structure F64 where
  m : ℤ
  e : ℤ
  deriving DecidableEq

/-- 2^s as an integer. -/
def pow2 (s : Nat) : ℤ := Int.ofNat (2 ^ s)

/-- Bit length of a natural number, fuel-based so that it evaluates by
plain reduction; 128 bits of fuel cover every mantissa that can arise
here. -/
def bitLenFuel : Nat → Nat → Nat
  | 0, _ => 0
  | fuel + 1, n => if n = 0 then 0 else bitLenFuel fuel (n / 2) + 1

/-- Bit length of a natural number. -/
def bitLen (n : Nat) : Nat := bitLenFuel 128 n

/-- Round a positive mantissa to 53 significant bits, round-to-nearest
with ties-to-even; returns the mantissa and the exponent increment. -/
def roundMantissa53 (n : ℕ) : ℕ × ℕ :=
  let k := bitLen n
  if k ≤ 53 then (n, 0)
  else
    let s := k - 53
    let q := n / 2 ^ s
    let r := n % 2 ^ s
    let half := 2 ^ (s - 1)
    let q2 := if half < r ∨ (r = half ∧ q % 2 = 1) then q + 1 else q
    if q2 = 2 ^ 53 then (2 ^ 52, s + 1) else (q2, s)

/-- Round an exact dyadic M·2^e to binary64 (round-to-nearest,
ties-to-even). -/
def roundDyadic (M : ℤ) (e : ℤ) : F64 :=
  if M = 0 then ⟨0, 0⟩
  else
    let p := roundMantissa53 M.natAbs
    if M < 0 then ⟨-(Int.ofNat p.1), e + Int.ofNat p.2⟩
    else ⟨Int.ofNat p.1, e + Int.ofNat p.2⟩

/-- Binary64 addition: the exact dyadic sum, rounded. -/
def F64.add (a b : F64) : F64 :=
  let e := min a.e b.e
  roundDyadic (a.m * pow2 (a.e - e).toNat + b.m * pow2 (b.e - e).toNat) e

/-- Exact comparison a < b of binary64 values (Python float comparison is
exact). -/
def F64.ltB (a b : F64) : Bool :=
  let e := min a.e b.e
  decide (a.m * pow2 (a.e - e).toNat < b.m * pow2 (b.e - e).toNat)

/-- Exact value equality of two (possibly unnormalized) binary64 values. -/
def F64.eqVal (a b : F64) : Bool :=
  let e := min a.e b.e
  decide (a.m * pow2 (a.e - e).toNat = b.m * pow2 (b.e - e).toNat)

/-- The binary64 value of the float literal 0.01 of the source:
5764607523034235·2⁻⁵⁹ = 1/100 + 2.08·10⁻¹⁹. -/
def f64_0_01 : F64 := ⟨5764607523034235, -59⟩

/-- The binary64 value of the float literal 0.05: 3602879701896397·2⁻⁵⁶. -/
def f64_0_05 : F64 := ⟨3602879701896397, -56⟩

/-- The binary64 value 0.5 (exactly representable). -/
def f64_0_5 : F64 := ⟨1, -1⟩

/-- The binary64 value 0.0. -/
def f64_0 : F64 := ⟨0, 0⟩

/-- The binary64 value 1.0 (exactly representable). -/
def f64_1 : F64 := ⟨1, 0⟩

/-- The binary64 value 10.0 (exactly representable). -/
def f64_10 : F64 := ⟨10, 0⟩

/-- The iterated binary64 sum of n copies of x (left-to-right
accumulation, as a Python `+=` loop). -/
def F64.sumRepeat (x : F64) : Nat → F64
  | 0 => f64_0
  | n + 1 => F64.add (F64.sumRepeat x n) x

/-- `ToolDefinition` with its float fields carried in binary64. -/
structure ToolDefinitionF where
  name : String
  description : String
  json_schema : Json
  cost_per_call : F64
  global_budget : Option F64
  per_session_budget : Option F64
  metadata : List (String × Json)

/-- `KeyError` / `ToolBudgetExceeded` outcomes of the binary64 registry. -/
inductive ToolErrorF where
  | unknownTool : String → ToolErrorF
  | globalBudgetExceeded : String → F64 → F64 → ToolErrorF
  | sessionBudgetExceeded : String → F64 → F64 → ToolErrorF
  deriving DecidableEq

/-- `ToolRegistry` with binary64 consumption counters. -/
structure ToolRegistryF where
  definitions : List (String × ToolDefinitionF)
  global_consumption : List (String × F64)
  session_consumption : List ((String × String) × F64)

namespace ToolRegistryF

/-- `ToolRegistry.register` over binary64 counters. -/
def register (r : ToolRegistryF) (d : ToolDefinitionF) : ToolRegistryF :=
  { r with
    definitions := setA r.definitions d.name d,
    global_consumption := setdefaultA r.global_consumption d.name f64_0 }

/-- `ToolRegistry.get`. -/
def get (r : ToolRegistryF) (name : String) : Except ToolErrorF ToolDefinitionF :=
  match lookupA r.definitions name with
  | some d => Except.ok d
  | none => Except.error (ToolErrorF.unknownTool name)

/-- Python `budget is not None and total > budget` in binary64. -/
def budgetViolation (budget : Option F64) (total : F64) : Option F64 :=
  match budget with
  | none => none
  | some b => if F64.ltB b total then some b else none

/-- `ToolRegistry.ensure_budget`, with the float arithmetic of the source
simulated exactly in binary64. -/
def ensure_budget (r : ToolRegistryF) (name : String) (session_id : String)
    (cost : Option F64) : ToolRegistryF × Option ToolErrorF :=
  match r.get name with
  | Except.error e => (r, some e)
  | Except.ok defn =>
      let computed_cost := cost.getD defn.cost_per_call
      let key := (name, session_id)
      let total := F64.add (lookupD r.global_consumption name f64_0) computed_cost
      match budgetViolation defn.global_budget total with
      | some b => (r, some (ToolErrorF.globalBudgetExceeded name total b))
      | none =>
          let session_total :=
            F64.add (lookupD r.session_consumption key f64_0) computed_cost
          match budgetViolation defn.per_session_budget session_total with
          | some b => (r, some (ToolErrorF.sessionBudgetExceeded name session_total b))
          | none =>
              ({ r with
                  global_consumption := setA r.global_consumption name total,
                  session_consumption := setA r.session_consumption key session_total },
               none)

end ToolRegistryF

/-- The `search` tool of `default_registry` with binary64 constants. -/
def searchToolF : ToolDefinitionF :=
  { name := "search", description := searchTool.description,
    json_schema := searchTool.json_schema, cost_per_call := f64_0_01,
    global_budget := some f64_10, per_session_budget := some f64_1,
    metadata := [] }

/-- The `alphavantage` tool with binary64 constants. -/
def alphavantageToolF : ToolDefinitionF :=
  { name := "alphavantage", description := alphavantageTool.description,
    json_schema := alphavantageTool.json_schema, cost_per_call := f64_0_05,
    global_budget := some ⟨25, 0⟩, per_session_budget := some ⟨2, 0⟩,
    metadata := [] }

/-- The `quant_sandbox` tool with binary64 constants. -/
def quantSandboxToolF : ToolDefinitionF :=
  { name := "quant_sandbox", description := quantSandboxTool.description,
    json_schema := quantSandboxTool.json_schema, cost_per_call := f64_0_5,
    global_budget := some ⟨50, 0⟩, per_session_budget := some ⟨5, 0⟩,
    metadata := quantSandboxTool.metadata }

/-- `default_registry()` with binary64 counters. -/
def default_registryF : ToolRegistryF :=
  (({ definitions := [], global_consumption := [], session_consumption := [] :
      ToolRegistryF }).register searchToolF).register alphavantageToolF
    |>.register quantSandboxToolF

/-- Session label for call number i of the binary64 run: a fresh session
every 99 calls.  In binary64 the accumulated session counter of a 100th
call in one session reaches 1 + 3·2⁻⁵² > 1.0 and would trip the session
ceiling (see the validation theorems), so sessions rotate before that
point and the global ceiling is the one the run exercises. -/
def sessionOfF (i : Nat) : String := toString (i / 99)

/-- The binary64 run, resumable for chunked evaluation: n successive
`ensure_budget` invocations of `search` with the default cost, starting
from registry st at call index start; after the first raised error the
run stops. -/
def runFromF (st : ToolRegistryF) (start : Nat) : Nat → ToolRegistryF × Option ToolErrorF
  | 0 => (st, none)
  | n + 1 =>
      match runFromF st start n with
      | (st2, none) => st2.ensure_budget "search" (sessionOfF (start + n)) none
      | (st2, some e) => (st2, some e)

/-- n successive `ensure_budget` invocations of `search` on the default
registry, in binary64. -/
def searchRunF (n : Nat) : ToolRegistryF × Option ToolErrorF :=
  runFromF default_registryF 0 n

/-- Registry state of the binary64 run after the first calls (generated
boundary for the chunked evaluation). -/
def searchRegF1 : ToolRegistryF :=
  { definitions := default_registryF.definitions,
    global_consumption := [("search", ⟨8917127262193588, -53⟩), ("alphavantage", ⟨0, 0⟩), ("quant_sandbox", ⟨0, 0⟩)],
    session_consumption :=
      [(("search", "0"), ⟨8917127262193588, -53⟩)] }

/-- Registry state of the binary64 run after the first calls (generated
boundary for the chunked evaluation). -/
def searchRegF2 : ToolRegistryF :=
  { definitions := default_registryF.definitions,
    global_consumption := [("search", ⟨8917127262193589, -52⟩), ("alphavantage", ⟨0, 0⟩), ("quant_sandbox", ⟨0, 0⟩)],
    session_consumption :=
      [(("search", "0"), ⟨8917127262193588, -53⟩),
      (("search", "1"), ⟨8917127262193588, -53⟩)] }

/-- Registry state of the binary64 run after the first calls (generated
boundary for the chunked evaluation). -/
def searchRegF3 : ToolRegistryF :=
  { definitions := default_registryF.definitions,
    global_consumption := [("search", ⟨6687845446645143, -51⟩), ("alphavantage", ⟨0, 0⟩), ("quant_sandbox", ⟨0, 0⟩)],
    session_consumption :=
      [(("search", "0"), ⟨8917127262193588, -53⟩),
      (("search", "1"), ⟨8917127262193588, -53⟩),
      (("search", "2"), ⟨8917127262193588, -53⟩)] }

/-- Registry state of the binary64 run after the first calls (generated
boundary for the chunked evaluation). -/
def searchRegF4 : ToolRegistryF :=
  { definitions := default_registryF.definitions,
    global_consumption := [("search", ⟨8917127262193491, -51⟩), ("alphavantage", ⟨0, 0⟩), ("quant_sandbox", ⟨0, 0⟩)],
    session_consumption :=
      [(("search", "0"), ⟨8917127262193588, -53⟩),
      (("search", "1"), ⟨8917127262193588, -53⟩),
      (("search", "2"), ⟨8917127262193588, -53⟩),
      (("search", "3"), ⟨8917127262193588, -53⟩)] }

/-- Registry state of the binary64 run after the first calls (generated
boundary for the chunked evaluation). -/
def searchRegF5 : ToolRegistryF :=
  { definitions := default_registryF.definitions,
    global_consumption := [("search", ⟨5573204538870920, -50⟩), ("alphavantage", ⟨0, 0⟩), ("quant_sandbox", ⟨0, 0⟩)],
    session_consumption :=
      [(("search", "0"), ⟨8917127262193588, -53⟩),
      (("search", "1"), ⟨8917127262193588, -53⟩),
      (("search", "2"), ⟨8917127262193588, -53⟩),
      (("search", "3"), ⟨8917127262193588, -53⟩),
      (("search", "4"), ⟨8917127262193588, -53⟩)] }

/-- Registry state of the binary64 run after the first calls (generated
boundary for the chunked evaluation). -/
def searchRegF6 : ToolRegistryF :=
  { definitions := default_registryF.definitions,
    global_consumption := [("search", ⟨6687845446645094, -50⟩), ("alphavantage", ⟨0, 0⟩), ("quant_sandbox", ⟨0, 0⟩)],
    session_consumption :=
      [(("search", "0"), ⟨8917127262193588, -53⟩),
      (("search", "1"), ⟨8917127262193588, -53⟩),
      (("search", "2"), ⟨8917127262193588, -53⟩),
      (("search", "3"), ⟨8917127262193588, -53⟩),
      (("search", "4"), ⟨8917127262193588, -53⟩),
      (("search", "5"), ⟨8917127262193588, -53⟩)] }

/-- Registry state of the binary64 run after the first calls (generated
boundary for the chunked evaluation). -/
def searchRegF7 : ToolRegistryF :=
  { definitions := default_registryF.definitions,
    global_consumption := [("search", ⟨7802486354419268, -50⟩), ("alphavantage", ⟨0, 0⟩), ("quant_sandbox", ⟨0, 0⟩)],
    session_consumption :=
      [(("search", "0"), ⟨8917127262193588, -53⟩),
      (("search", "1"), ⟨8917127262193588, -53⟩),
      (("search", "2"), ⟨8917127262193588, -53⟩),
      (("search", "3"), ⟨8917127262193588, -53⟩),
      (("search", "4"), ⟨8917127262193588, -53⟩),
      (("search", "5"), ⟨8917127262193588, -53⟩),
      (("search", "6"), ⟨8917127262193588, -53⟩)] }

/-- Registry state of the binary64 run after the first calls (generated
boundary for the chunked evaluation). -/
def searchRegF8 : ToolRegistryF :=
  { definitions := default_registryF.definitions,
    global_consumption := [("search", ⟨8917127262193442, -50⟩), ("alphavantage", ⟨0, 0⟩), ("quant_sandbox", ⟨0, 0⟩)],
    session_consumption :=
      [(("search", "0"), ⟨8917127262193588, -53⟩),
      (("search", "1"), ⟨8917127262193588, -53⟩),
      (("search", "2"), ⟨8917127262193588, -53⟩),
      (("search", "3"), ⟨8917127262193588, -53⟩),
      (("search", "4"), ⟨8917127262193588, -53⟩),
      (("search", "5"), ⟨8917127262193588, -53⟩),
      (("search", "6"), ⟨8917127262193588, -53⟩),
      (("search", "7"), ⟨8917127262193588, -53⟩)] }

/-- Registry state of the binary64 run after the first calls (generated
boundary for the chunked evaluation). -/
def searchRegF9 : ToolRegistryF :=
  { definitions := default_registryF.definitions,
    global_consumption := [("search", ⟨5015884084983808, -49⟩), ("alphavantage", ⟨0, 0⟩), ("quant_sandbox", ⟨0, 0⟩)],
    session_consumption :=
      [(("search", "0"), ⟨8917127262193588, -53⟩),
      (("search", "1"), ⟨8917127262193588, -53⟩),
      (("search", "2"), ⟨8917127262193588, -53⟩),
      (("search", "3"), ⟨8917127262193588, -53⟩),
      (("search", "4"), ⟨8917127262193588, -53⟩),
      (("search", "5"), ⟨8917127262193588, -53⟩),
      (("search", "6"), ⟨8917127262193588, -53⟩),
      (("search", "7"), ⟨8917127262193588, -53⟩),
      (("search", "8"), ⟨8917127262193588, -53⟩)] }

/-- Registry state of the binary64 run after the first calls (generated
boundary for the chunked evaluation). -/
def searchRegF10 : ToolRegistryF :=
  { definitions := default_registryF.definitions,
    global_consumption := [("search", ⟨5573204538870895, -49⟩), ("alphavantage", ⟨0, 0⟩), ("quant_sandbox", ⟨0, 0⟩)],
    session_consumption :=
      [(("search", "0"), ⟨8917127262193588, -53⟩),
      (("search", "1"), ⟨8917127262193588, -53⟩),
      (("search", "2"), ⟨8917127262193588, -53⟩),
      (("search", "3"), ⟨8917127262193588, -53⟩),
      (("search", "4"), ⟨8917127262193588, -53⟩),
      (("search", "5"), ⟨8917127262193588, -53⟩),
      (("search", "6"), ⟨8917127262193588, -53⟩),
      (("search", "7"), ⟨8917127262193588, -53⟩),
      (("search", "8"), ⟨8917127262193588, -53⟩),
      (("search", "9"), ⟨8917127262193588, -53⟩)] }

/-- Registry state of the binary64 run after the first calls (generated
boundary for the chunked evaluation). -/
def searchRegF11 : ToolRegistryF :=
  { definitions := default_registryF.definitions,
    global_consumption := [("search", ⟨5629499534213025, -49⟩), ("alphavantage", ⟨0, 0⟩), ("quant_sandbox", ⟨0, 0⟩)],
    session_consumption :=
      [(("search", "0"), ⟨8917127262193588, -53⟩),
      (("search", "1"), ⟨8917127262193588, -53⟩),
      (("search", "2"), ⟨8917127262193588, -53⟩),
      (("search", "3"), ⟨8917127262193588, -53⟩),
      (("search", "4"), ⟨8917127262193588, -53⟩),
      (("search", "5"), ⟨8917127262193588, -53⟩),
      (("search", "6"), ⟨8917127262193588, -53⟩),
      (("search", "7"), ⟨8917127262193588, -53⟩),
      (("search", "8"), ⟨8917127262193588, -53⟩),
      (("search", "9"), ⟨8917127262193588, -53⟩),
      (("search", "10"), ⟨7205759403792793, -56⟩)] }

/-! ## Prompt data model (models/llm.py) -/

/-- `MessageRole` enum. -/
inductive MessageRole where
  | system : MessageRole
  | user : MessageRole
  | assistant : MessageRole
  | tool : MessageRole
  | scratchpad : MessageRole
  deriving DecidableEq

/-- The string value of a role (`MessageRole` is a str-valued enum). -/
def MessageRole.value : MessageRole → String
  | .system => "system"
  | .user => "user"
  | .assistant => "assistant"
  | .tool => "tool"
  | .scratchpad => "scratchpad"

/-- Python truthiness of `Optional[str]` (`None` and the empty string are
falsy). -/
def truthyOptStr : Option String → Bool
  | none => false
  | some s => s ≠ ""

/-- `DeliberationFrame` dataclass. -/
structure DeliberationFrame where
  name : String
  content : String
  visible : Bool
  channel : String
  metadata : List (String × Json)

/-- `DeliberationFrame.to_dict`. -/
def DeliberationFrame.to_dict (f : DeliberationFrame) : Json :=
  Json.obj
    ([("name", Json.str f.name), ("content", Json.str f.content),
      ("channel", Json.str f.channel)]
      ++ (if !f.metadata.isEmpty then [("metadata", Json.obj f.metadata)] else [])
      ++ [("visible", Json.bool f.visible)])

/-- `PromptMessage` dataclass. -/
structure PromptMessage where
  role : MessageRole
  content : String
  hidden : Bool
  scratchpad : Option String
  frames : List DeliberationFrame
  metadata : List (String × Json)

/-- `PromptMessage.to_dict`: raises `ValueError` when the message is hidden
and the caller did not pass `include_hidden=True`. -/
def PromptMessage.to_dict (m : PromptMessage) (include_hidden : Bool) :
    Except String Json :=
  if m.hidden && !include_hidden then
    Except.error "Hidden messages cannot be serialized without include_hidden=True"
  else
    Except.ok (Json.obj
      ([("role", Json.str m.role.value), ("content", Json.str m.content)]
        ++ (if !m.metadata.isEmpty then [("metadata", Json.obj m.metadata)] else [])
        ++ (if truthyOptStr m.scratchpad then
              [("scratchpad", Json.str (m.scratchpad.getD ""))] else [])
        ++ (if !m.frames.isEmpty then
              [("frames", Json.arr (m.frames.map DeliberationFrame.to_dict))] else [])
        ++ [("hidden", Json.bool m.hidden)]))

/-- Python `base.setdefault(outer, dict())[inner] = v` on the entry list
of a JSON object. -/
def setNestedA (l : List (String × Json)) (outer inner : String) (v : Json) :
    List (String × Json) :=
  let current :=
    match lookupA l outer with
    | some (Json.obj entries) => entries
    | _ => []
  setA l outer (Json.obj (setA current inner v))

/-- `PromptMessage.render_for_provider`. -/
def PromptMessage.render_for_provider (m : PromptMessage) (provider : String) : Json :=
  let base0 : List (String × Json) := [("role", Json.str m.role.value)]
  let base1 : List (String × Json) :=
    if provider == "openai" || provider == "deepseek" || provider == "kimi" then
      setA base0 "content"
        (Json.str (if truthyOptStr m.scratchpad then
          m.content ++ "\n\n" ++ m.scratchpad.getD "" else m.content))
    else if provider == "anthropic" || provider == "gemini" then
      let b := setA base0 "content" (Json.str m.content)
      if truthyOptStr m.scratchpad then
        setNestedA b "metadata" "scratchpad" (Json.str (m.scratchpad.getD ""))
      else b
    else if provider == "perplexity" then
      let b := setA base0 "content" (Json.str m.content)
      if !m.frames.isEmpty then
        setA b "frames"
          (Json.arr ((m.frames.filter (fun f => f.visible)).map DeliberationFrame.to_dict))
      else b
    else
      setA base0 "content" (Json.str m.content)
  let base2 :=
    if !m.frames.isEmpty && (provider == "openai" || provider == "deepseek") then
      setNestedA base1 "metadata" "frames" (Json.arr (m.frames.map DeliberationFrame.to_dict))
    else base1
  Json.obj base2

/-- `Prompt` dataclass. -/
structure Prompt where
  messages : List PromptMessage
  metadata : List (String × Json)
  tags : List String

/-- The message loop of `Prompt.compile`: hidden messages are skipped unless
`include_scratchpads` is set. -/
def compileMessages (provider : String) (include_scratchpads : Bool) :
    List PromptMessage → List Json
  | [] => []
  | m :: rest =>
      if m.hidden && !include_scratchpads then
        compileMessages provider include_scratchpads rest
      else
        m.render_for_provider provider :: compileMessages provider include_scratchpads rest

/-- `Prompt.compile`. -/
def Prompt.compile (p : Prompt) (provider : String) (include_scratchpads : Bool) :
    List Json :=
  compileMessages provider include_scratchpads p.messages

/-! ## Anthropic adapter (providers/anthropic_adapter.py) -/

/-- `ProviderSettings` dataclass (providers/base.py). -/
structure ProviderSettings where
  model : String
  api_key : String
  api_base : Option String
  options : List (String × Json)
  request_timeout : Option ℚ
  headers : List (String × String)

/-- Lookup on a JSON object (Python `d[k]` / `d.get(k)`). -/
def jGet (j : Json) (k : String) : Option Json :=
  match j with
  | Json.obj entries => lookupA entries k
  | _ => none

/-- Python `value == s` for a possibly absent dict entry; a non-string value
never equals a string. -/
def isStrVal (j : Option Json) (s : String) : Bool :=
  match j with
  | some (Json.str t) => t == s
  | _ => false

/-- Python truthiness of a JSON value (None, False, 0, "", [] and the empty
dict are falsy). -/
def pyTruthyJson : Json → Bool
  | Json.null => false
  | Json.bool b => b
  | Json.num q => decide (q ≠ 0)
  | Json.str s => s != ""
  | Json.arr l => !l.isEmpty
  | Json.obj l => !l.isEmpty

/-- `ProviderAdapter.normalize_tool_spec`: both branches return the tool
unchanged (the Anthropic `tool_call_format` is "json_schema"). -/
def normalize_tool_spec (tool : Json) : Json := tool

/-- The class attribute `supports_streaming` inherited by the adapter. -/
def anthropic_supports_streaming : Bool := true

/-- The message loop of `AnthropicAdapter.create_payload`: the first
system-role message is moved out into `system` when no system prompt is
present yet; every other message is re-emitted as a flat role/content dict.
(`render_for_provider` always sets both keys, so the `.getD Json.null`
defaults stand for the `KeyError` Python would raise and are never
exercised.) -/
def anthropicSplit : List Json → Option Json → Option Json × List Json
  | [], system => (system, [])
  | msg :: rest, system =>
      if isStrVal (jGet msg "role") "system" && system.isNone then
        anthropicSplit rest (jGet msg "content")
      else
        let r := anthropicSplit rest system
        (r.1, Json.obj [("role", (jGet msg "role").getD Json.null),
                        ("content", (jGet msg "content").getD Json.null)] :: r.2)

/-- `AnthropicAdapter.create_payload`. -/
def AnthropicAdapter.create_payload (settings : ProviderSettings) (prompt : Prompt)
    (max_tokens : Option ℤ) (temperature : Option ℚ) (tools : List Json)
    (system_prompt : Option String) (stream : Bool)
    (options : List (String × Json)) : Json :=
  let split := anthropicSplit (prompt.compile "anthropic" true) (system_prompt.map Json.str)
  let payload0 : List (String × Json) :=
    [("model", Json.str settings.model), ("messages", Json.arr split.2)]
  let payload1 :=
    match split.1 with
    | some s => if pyTruthyJson s then setA payload0 "system" s else payload0
    | none => payload0
  let payload2 :=
    match max_tokens with
    | some n => setA payload1 "max_tokens" (Json.num (n : ℚ))
    | none => payload1
  let payload3 :=
    match temperature with
    | some t => setA payload2 "temperature" (Json.num t)
    | none => payload2
  let payload4 :=
    if !tools.isEmpty then
      setA payload3 "tools" (Json.arr (tools.map normalize_tool_spec))
    else payload3
  let payload5 := updateA payload4 options
  Json.obj (setA payload5 "stream" (Json.bool (stream && anthropic_supports_streaming)))

/-! ## Token bucket rate limiter (providers/base.py) -/

/-- `RateLimit` dataclass as constructed (before `__post_init__`). -/
structure RateLimit where
  rate_per_minute : ℤ
  burst : Option ℤ

/-- `RateLimit.__post_init__`: an absent burst defaults to the rate. -/
def RateLimit.post_init (l : RateLimit) : RateLimit :=
  match l.burst with
  | none => { l with burst := some l.rate_per_minute }
  | some _ => l

/-- Python `limit.burst or limit.rate_per_minute`: both `None` and `0` are
falsy and fall through to the rate.  This is the capacity the bucket caps
at, and the initial token count. -/
def RateLimit.burst_or_rate (l : RateLimit) : ℤ :=
  match l.burst with
  | none => l.rate_per_minute
  | some b => if b = 0 then l.rate_per_minute else b

/-- `AsyncTokenBucket` state; the asyncio lock serializes `acquire`, and the
monotonic clock is passed explicitly. -/
structure AsyncTokenBucket where
  limit : RateLimit
  tokens : ℤ
  updated_at : ℚ

/-- `AsyncTokenBucket.__init__`. -/
def AsyncTokenBucket.init (limit : RateLimit) (now : ℚ) : AsyncTokenBucket :=
  { limit := limit, tokens := limit.burst_or_rate, updated_at := now }

/-- Python `int(x)`: truncation toward zero. -/
def pyIntTrunc (q : ℚ) : ℤ := if q < 0 then -(Int.floor (-q)) else Int.floor q

/-- `AsyncTokenBucket._refill`: lazily add `int(elapsed * rate / 60)` tokens,
capped at the capacity, advancing `updated_at` only when something was
added. -/
def AsyncTokenBucket.refill (b : AsyncTokenBucket) (now : ℚ) : AsyncTokenBucket :=
  let elapsed := now - b.updated_at
  let refillAmount := pyIntTrunc (elapsed * ((b.limit.rate_per_minute : ℚ) / 60))
  if 0 < refillAmount then
    { b with tokens := min b.limit.burst_or_rate (b.tokens + refillAmount),
             updated_at := now }
  else b

/-- One pass of `AsyncTokenBucket.acquire` without sleeping: refill, then
take one token when the count is positive (`none` models entering the
sleep-and-retry loop). -/
def AsyncTokenBucket.acquireOnce (b : AsyncTokenBucket) (now : ℚ) :
    Option AsyncTokenBucket :=
  let b2 := b.refill now
  if 0 < b2.tokens then some { b2 with tokens := b2.tokens - 1 } else none

/-! ## Router cache path (services/llm_router.py) -/

/-- `ResponseUsage` as populated by `_coerce_response` (the token counts and
cost are taken from the vendor JSON unchecked). -/
structure ResponseUsage where
  input_tokens : Json
  output_tokens : Json
  cost : Option Json

/-- `LLMResponse` as built by `_coerce_response` (`chunks` starts empty). -/
structure LLMResponse where
  text : String
  raw : Json
  usage : Option ResponseUsage
  logprobs : Option Json
  frames : List DeliberationFrame
  tool_calls : List Json

/-- Python `d.get(k, default)` on a JSON object. -/
def jGetD (j : Json) (k : String) (d : Json) : Json := (jGet j k).getD d

/-- A JSON value used as a list by `_coerce_response`. -/
def jItems : Json → List Json
  | Json.arr l => l
  | _ => []

/-- A JSON value used as a string by `_coerce_response`. -/
def jText : Json → String
  | Json.str s => s
  | _ => ""

/-- Python `a or b` on strings (the empty string is falsy). -/
def pyStrOr (a b : String) : String := if a = "" then b else a

/-- `LLMRouter._coerce_response`: normalize a raw vendor response to the
canonical `LLMResponse` shape.  For a non-dict value, the Python `str(raw)` is
abstracted by the JSON encoding (a value-determined rendering). -/
def coerce_response (provider : String) (raw : Json) : LLMResponse :=
  match raw with
  | Json.obj entries =>
      let rawObj := Json.obj entries
      let usage : Option ResponseUsage :=
        match jGet rawObj "usage" with
        | some u =>
            if pyTruthyJson u then
              some { input_tokens := jGetD u "prompt_tokens" (jGetD u "input_tokens" (Json.num 0)),
                     output_tokens := jGetD u "completion_tokens" (jGetD u "output_tokens" (Json.num 0)),
                     cost := jGet u "total_cost" }
            else none
        | none => none
      let tlt : String × Option Json × List Json :=
        if provider == "openai" then
          match jItems (jGetD rawObj "choices" (Json.arr [])) with
          | [] => ("", none, [])
          | c :: _ =>
              let message := jGetD c "message" (Json.obj [])
              (jText (jGetD message "content" (Json.str "")),
               jGet message "logprobs",
               jItems (jGetD message "tool_calls" (Json.arr [])))
        else if provider == "anthropic" then
          match jItems (jGetD rawObj "content" (Json.arr [])) with
          | [] => ("", none, [])
          | c :: rest =>
              (String.join ((c :: rest).map (fun part => jText (jGetD part "text" (Json.str "")))),
               none, [])
        else if provider == "perplexity" then
          (pyStrOr (jText (jGetD rawObj "output" (Json.str "")))
            (jText (jGetD rawObj "answer" (Json.str ""))), none, [])
        else if provider == "deepseek" then
          match jItems (jGetD rawObj "choices" (Json.arr [])) with
          | [] => ("", none, [])
          | c :: _ =>
              (jText (jGetD (jGetD c "message" (Json.obj [])) "content" (Json.str "")),
               jGet c "logprobs", [])
        else if provider == "gemini" then
          match jItems (jGetD rawObj "candidates" (Json.arr [])) with
          | [] => ("", none, [])
          | c :: _ =>
              (String.join ((jItems (jGetD (jGetD c "content" (Json.obj [])) "parts"
                  (Json.arr []))).map (fun part => jText (jGetD part "text" (Json.str "")))),
               none, [])
        else if provider == "kimi" then
          match jItems (jGetD rawObj "choices" (Json.arr [])) with
          | [] => ("", none, [])
          | c :: _ =>
              (jText (jGetD (jGetD c "message" (Json.obj [])) "content" (Json.str "")),
               none, [])
        else ("", none, [])
      { text := pyStrOr tlt.1 (jText (jGetD rawObj "text" (Json.str ""))),
        raw := rawObj, usage := usage, logprobs := tlt.2.1, frames := [],
        tool_calls := tlt.2.2 }
  | other =>
      { text := Json.dumps other, raw := other, usage := none, logprobs := none,
        frames := [], tool_calls := [] }

/-- Python `d.pop(k, None)` (the resulting dict). -/
def removeA {κ α : Type} [DecidableEq κ] : List (κ × α) → κ → List (κ × α)
  | [], _ => []
  | (k₀, v) :: rest, k => if k₀ = k then rest else (k₀, v) :: removeA rest k

/-- `InMemoryCache.get`: a live entry is returned; an expired entry is
dropped and reported as a miss.  The store after the call is returned
alongside.  (The Redis round trip through `json.dumps`/`json.loads` is the
identity on the stored value, so entries hold the raw JSON directly.) -/
def InMemoryCache.fetch (store : List (String × (Json × Option ℚ))) (key : String)
    (now : ℚ) : Option Json × List (String × (Json × Option ℚ)) :=
  match lookupA store key with
  | none => (none, store)
  | some (v, expires_at) =>
      match expires_at with
      | some t => if t < now then (none, removeA store key) else (some v, store)
      | none => (some v, store)

/-- `InMemoryCache.set` with `ex=ttl` (as called by `_store_cache`). -/
def InMemoryCache.store (st : List (String × (Json × Option ℚ))) (key : String)
    (v : Json) (ex : Option ℚ) (now : ℚ) : List (String × (Json × Option ℚ)) :=
  setA st key (v, ex.map (fun e => now + e))

/-- `AsyncTokenBucket.acquire` as it completes on the non-cached path: the
refill followed by taking one token (`now` stands for an instant at which the
sleep loop has ended and a token is available). -/
def AsyncTokenBucket.acquireCommit (b : AsyncTokenBucket) (now : ℚ) : AsyncTokenBucket :=
  let b2 := b.refill now
  { b2 with tokens := b2.tokens - 1 }

/-- Router state seen by one `aroute` call: the cache and the optional
token bucket of the adapter. -/
structure RouterState where
  cache : List (String × (Json × Option ℚ))
  bucket : Option AsyncTokenBucket

/-- Outcome of one non-streaming `aroute` call; `dispatched` records whether
`adapter.execute` (the vendor network call) ran. -/
structure RouteOutcome where
  response : LLMResponse
  state : RouterState
  dispatched : Bool

/-- The non-streaming tail of `LLMRouter.aroute`, entered once the payload
and cache key are built: with caching on, a live cache hit decodes the
stored raw payload, normalizes it and returns at once; otherwise
`adapter.execute` runs — acquiring a rate-limiter token first when a bucket
is configured — and the raw response is normalized and stored under the key
with the configured TTL.  `dispatch` stands for the vendor network call and
`now` for the event-loop clock. -/
def aroute_nonstream (dispatch : Json → Json) (provider : String) (use_cache : Bool)
    (key : String) (payload : Json) (ttl : ℚ) (now : ℚ) (st : RouterState) :
    RouteOutcome :=
  let fetched := if use_cache then InMemoryCache.fetch st.cache key now else (none, st.cache)
  match fetched.1 with
  | some raw =>
      { response := coerce_response provider raw,
        state := { cache := fetched.2, bucket := st.bucket },
        dispatched := false }
  | none =>
      let bucket2 := st.bucket.map (fun b => b.acquireCommit now)
      let raw := dispatch payload
      let cache2 := if use_cache then InMemoryCache.store fetched.2 key raw (some ttl) now
                    else fetched.2
      { response := coerce_response provider raw,
        state := { cache := cache2, bucket := bucket2 },
        dispatched := true }

/-! ## Theorems -/

theorem lookupA_setA_self {κ α : Type} [DecidableEq κ] (l : List (κ × α)) (k : κ) (v : α) :
    lookupA (setA l k v) k = some v := by
  induction l with
  | nil => simp [setA, lookupA]
  | cons hd tl ih =>
      obtain ⟨k₀, v₀⟩ := hd
      by_cases h : k₀ = k
      · simp [setA, lookupA, h]
      · simp [setA, lookupA, h, ih]

theorem lookupA_setA_ne {κ α : Type} [DecidableEq κ] (l : List (κ × α)) (k k' : κ) (v : α)
    (h : k' ≠ k) : lookupA (setA l k v) k' = lookupA l k' := by
  induction l with
  | nil => simp [setA, lookupA, Ne.symm h]
  | cons hd tl ih =>
      obtain ⟨k₀, v₀⟩ := hd
      by_cases hk : k₀ = k
      · subst hk
        have hne : ¬ k₀ = k' := fun hkk => h hkk.symm
        simp [setA, lookupA, hne]
      · simp [setA, lookupA, hk, ih]

theorem lookupD_setA_self {κ α : Type} [DecidableEq κ] (l : List (κ × α)) (k : κ) (v d : α) :
    lookupD (setA l k v) k d = v := by
  simp [lookupD, lookupA_setA_self]

theorem lookupD_setA_ne {κ α : Type} [DecidableEq κ] (l : List (κ × α)) (k k' : κ) (v d : α)
    (h : k' ≠ k) : lookupD (setA l k v) k' d = lookupD l k' d := by
  simp [lookupD, lookupA_setA_ne _ _ _ _ h]

theorem dumpsEntries_eq_map (l : List (String × Json)) :
    dumpsEntries l = l.map (fun kv => (kv.1, Json.dumps kv.2)) := by
  induction l with
  | nil => rfl
  | cons hd tl ih => obtain ⟨k, v⟩ := hd; simp [dumpsEntries, ih]

theorem pairwise_lt_of_le_nodup {α : Type} {l : List (String × α)}
    (hle : List.Pairwise (fun a b => entryKeyLe a b = true) l)
    (hnd : (l.map Prod.fst).Nodup) :
    List.Sorted (fun a b : String × α => a.1 < b.1) l := by
  have hne : List.Pairwise (fun a b : String × α => a.1 ≠ b.1) l :=
    (List.pairwise_map).mp hnd
  exact (hle.and hne).imp (fun h =>
    lt_of_le_of_ne (by simpa [entryKeyLe] using h.1) h.2)

/-- Two permuted association lists with duplicate-free keys sort identically. -/
theorem mergeSort_eq_of_perm {α : Type} {l₁ l₂ : List (String × α)} (hp : l₁.Perm l₂)
    (hn : (l₁.map Prod.fst).Nodup) :
    l₁.mergeSort entryKeyLe = l₂.mergeSort entryKeyLe := by
  have htrans : ∀ a b c : String × α,
      entryKeyLe a b = true → entryKeyLe b c = true → entryKeyLe a c = true := by
    intro a b c h₁ h₂
    simp only [entryKeyLe, decide_eq_true_eq] at *
    exact le_trans h₁ h₂
  have htotal : ∀ a b : String × α, (entryKeyLe a b || entryKeyLe b a) = true := by
    intro a b
    simp only [entryKeyLe, Bool.or_eq_true, decide_eq_true_eq]
    exact le_total a.1 b.1
  have p₁ := List.mergeSort_perm l₁ entryKeyLe
  have p₂ := List.mergeSort_perm l₂ entryKeyLe
  have hperm : (l₁.mergeSort entryKeyLe).Perm (l₂.mergeSort entryKeyLe) :=
    (p₁.trans hp).trans p₂.symm
  have hn₂ : (l₂.map Prod.fst).Nodup := ((hp.map Prod.fst).nodup_iff).mp hn
  have hs₁ := pairwise_lt_of_le_nodup (List.sorted_mergeSort htrans htotal l₁)
    (((p₁.map Prod.fst).nodup_iff).mpr hn)
  have hs₂ := pairwise_lt_of_le_nodup (List.sorted_mergeSort htrans htotal l₂)
    (((p₂.map Prod.fst).nodup_iff).mpr hn₂)
  haveI : IsAntisymm (String × α) (fun a b => a.1 < b.1) :=
    ⟨fun _ _ h₁ h₂ => ((lt_asymm h₁) h₂).elim⟩
  exact List.eq_of_perm_of_sorted hperm hs₁ hs₂

/-- C2: for every model identifier and every pair of payload dicts that hold
the same bindings but were built in different key-insertion orders, the cache
key is identical: the keys-sorted encoding makes the digest input — and hence
the key — independent of field order, for any digest function (in particular
SHA-256). -/
theorem cache_key_insertion_order_invariant (sha256_hex : String → String)
    (model : String) (p₁ p₂ : List (String × Json)) (hperm : p₁.Perm p₂)
    (hnodup : (p₁.map Prod.fst).Nodup) :
    cache_key sha256_hex model (Json.obj p₁) = cache_key sha256_hex model (Json.obj p₂) := by
  unfold cache_key
  congr 1
  simp only [Json.dumps, dumpsEntries]
  have hpermD : (dumpsEntries p₁).Perm (dumpsEntries p₂) := by
    rw [dumpsEntries_eq_map, dumpsEntries_eq_map]
    exact hperm.map _
  have hnodupD : ((dumpsEntries p₁).map Prod.fst).Nodup := by
    rw [dumpsEntries_eq_map]
    simpa [List.map_map, Function.comp] using hnodup
  rw [mergeSort_eq_of_perm hpermD hnodupD]

/-- Witness for C2 at a concrete pair of payloads that differ only in
insertion order. -/
theorem cache_key_insertion_order_invariant_witness :
    cache_key (fun s => s) "gpt-4o"
        (Json.obj [("temperature", Json.num 0), ("messages", Json.arr [])]) =
      cache_key (fun s => s) "gpt-4o"
        (Json.obj [("messages", Json.arr []), ("temperature", Json.num 0)]) :=
  cache_key_insertion_order_invariant (fun s => s) "gpt-4o"
    [("temperature", Json.num 0), ("messages", Json.arr [])]
    [("messages", Json.arr []), ("temperature", Json.num 0)]
    (List.Perm.swap _ _ _) (by decide)

/-! ## C1, C9, C10 -/

theorem ensure_budget_global_reject (r : ToolRegistry) (name session_id : String)
    (cost : Option ℚ) (defn : ToolDefinition)
    (hdef : lookupA r.definitions name = some defn) (b : ℚ)
    (hb : defn.global_budget = some b)
    (hlt : b < lookupD r.global_consumption name 0 + cost.getD defn.cost_per_call) :
    r.ensure_budget name session_id cost =
      (r, some (ToolError.globalBudgetExceeded name
        (lookupD r.global_consumption name 0 + cost.getD defn.cost_per_call) b)) := by
  have hget : r.get name = Except.ok defn := by
    simp [ToolRegistry.get, hdef]
  have hvg : ToolRegistry.budgetViolation defn.global_budget
      (lookupD r.global_consumption name 0 + cost.getD defn.cost_per_call) = some b := by
    simp [ToolRegistry.budgetViolation, hb, hlt]
  simp [ToolRegistry.ensure_budget, hget, hvg]

theorem ensure_budget_session_reject (r : ToolRegistry) (name session_id : String)
    (cost : Option ℚ) (defn : ToolDefinition)
    (hdef : lookupA r.definitions name = some defn)
    (hg : ∀ b, defn.global_budget = some b →
      lookupD r.global_consumption name 0 + cost.getD defn.cost_per_call ≤ b)
    (b : ℚ) (hb : defn.per_session_budget = some b)
    (hlt : b < lookupD r.session_consumption (name, session_id) 0 + cost.getD defn.cost_per_call) :
    r.ensure_budget name session_id cost =
      (r, some (ToolError.sessionBudgetExceeded name
        (lookupD r.session_consumption (name, session_id) 0 + cost.getD defn.cost_per_call) b)) := by
  have hget : r.get name = Except.ok defn := by
    simp [ToolRegistry.get, hdef]
  have hnog : ToolRegistry.budgetViolation defn.global_budget
      (lookupD r.global_consumption name 0 + cost.getD defn.cost_per_call) = none := by
    cases hgb : defn.global_budget with
    | none => simp [ToolRegistry.budgetViolation]
    | some g =>
        have := hg g hgb
        simp [ToolRegistry.budgetViolation, not_lt_of_le this]
  have hvs : ToolRegistry.budgetViolation defn.per_session_budget
      (lookupD r.session_consumption (name, session_id) 0 + cost.getD defn.cost_per_call) = some b := by
    simp [ToolRegistry.budgetViolation, hb, hlt]
  simp [ToolRegistry.ensure_budget, hget, hnog, hvs]

theorem ensure_budget_commit (r : ToolRegistry) (name session_id : String)
    (cost : Option ℚ) (defn : ToolDefinition)
    (hdef : lookupA r.definitions name = some defn)
    (hg : ∀ b, defn.global_budget = some b →
      lookupD r.global_consumption name 0 + cost.getD defn.cost_per_call ≤ b)
    (hs : ∀ b, defn.per_session_budget = some b →
      lookupD r.session_consumption (name, session_id) 0 + cost.getD defn.cost_per_call ≤ b) :
    r.ensure_budget name session_id cost =
      ({ r with
          global_consumption := setA r.global_consumption name
            (lookupD r.global_consumption name 0 + cost.getD defn.cost_per_call),
          session_consumption := setA r.session_consumption (name, session_id)
            (lookupD r.session_consumption (name, session_id) 0 + cost.getD defn.cost_per_call) },
       none) := by
  have hget : r.get name = Except.ok defn := by
    simp [ToolRegistry.get, hdef]
  have hnog : ToolRegistry.budgetViolation defn.global_budget
      (lookupD r.global_consumption name 0 + cost.getD defn.cost_per_call) = none := by
    cases hgb : defn.global_budget with
    | none => simp [ToolRegistry.budgetViolation]
    | some g =>
        have := hg g hgb
        simp [ToolRegistry.budgetViolation, not_lt_of_le this]
  have hnos : ToolRegistry.budgetViolation defn.per_session_budget
      (lookupD r.session_consumption (name, session_id) 0 + cost.getD defn.cost_per_call) = none := by
    cases hsb : defn.per_session_budget with
    | none => simp [ToolRegistry.budgetViolation]
    | some s =>
        have := hs s hsb
        simp [ToolRegistry.budgetViolation, not_lt_of_le this]
  simp [ToolRegistry.ensure_budget, hget, hnog, hnos]

/-- C1: `ensure_budget` is a single check-and-commit.  With the cost
defaulting to the `cost_per_call` of the definition, the prospective global and
per-session totals are prior consumption plus the cost; the call rejects
with a budget-exceeded failure exactly when a present ceiling is strictly
exceeded (an absent ceiling never rejects), and a rejection leaves both
counters — indeed the whole registry — unchanged; only when both checks pass
are both counters set to their incremented totals. -/
theorem ensure_budget_check_and_commit (r : ToolRegistry) (name session_id : String)
    (cost : Option ℚ) (defn : ToolDefinition)
    (hdef : lookupA r.definitions name = some defn) :
    (∀ b, defn.global_budget = some b →
      b < lookupD r.global_consumption name 0 + cost.getD defn.cost_per_call →
      r.ensure_budget name session_id cost =
        (r, some (ToolError.globalBudgetExceeded name
          (lookupD r.global_consumption name 0 + cost.getD defn.cost_per_call) b))) ∧
    ((∀ b, defn.global_budget = some b →
        lookupD r.global_consumption name 0 + cost.getD defn.cost_per_call ≤ b) →
      ∀ b, defn.per_session_budget = some b →
      b < lookupD r.session_consumption (name, session_id) 0 + cost.getD defn.cost_per_call →
      r.ensure_budget name session_id cost =
        (r, some (ToolError.sessionBudgetExceeded name
          (lookupD r.session_consumption (name, session_id) 0 + cost.getD defn.cost_per_call) b))) ∧
    ((∀ b, defn.global_budget = some b →
        lookupD r.global_consumption name 0 + cost.getD defn.cost_per_call ≤ b) →
     (∀ b, defn.per_session_budget = some b →
        lookupD r.session_consumption (name, session_id) 0 + cost.getD defn.cost_per_call ≤ b) →
      r.ensure_budget name session_id cost =
        ({ r with
            global_consumption := setA r.global_consumption name
              (lookupD r.global_consumption name 0 + cost.getD defn.cost_per_call),
            session_consumption := setA r.session_consumption (name, session_id)
              (lookupD r.session_consumption (name, session_id) 0 + cost.getD defn.cost_per_call) },
         none)) :=
  ⟨fun b hb hlt => ensure_budget_global_reject r name session_id cost defn hdef b hb hlt,
   fun hg b hb hlt => ensure_budget_session_reject r name session_id cost defn hdef hg b hb hlt,
   fun hg hs => ensure_budget_commit r name session_id cost defn hdef hg hs⟩

/-- Witness for C1: on the fresh default registry, a first `search` call in
some session passes both checks and commits. -/
theorem ensure_budget_check_and_commit_witness :
    default_registry.ensure_budget "search" "sess-1" none =
      ({ default_registry with
          global_consumption := setA default_registry.global_consumption "search"
            (lookupD default_registry.global_consumption "search" 0 + searchTool.cost_per_call),
          session_consumption := setA default_registry.session_consumption ("search", "sess-1")
            (lookupD default_registry.session_consumption ("search", "sess-1") 0 + searchTool.cost_per_call) },
       none) := by
  have h := ensure_budget_check_and_commit default_registry "search" "sess-1" none searchTool rfl
  have hglobal : lookupD default_registry.global_consumption "search" 0 = 0 := rfl
  have hsession : lookupD default_registry.session_consumption ("search", "sess-1") 0 = 0 := rfl
  refine h.2.2 ?_ ?_
  · intro b hb
    have hb10 : b = 10 := by
      have : (some (10 : ℚ) : Option ℚ) = some b := hb
      exact (Option.some.inj this).symm
    rw [hb10, hglobal]
    norm_num [searchTool]
  · intro b hb
    have hb1 : b = 1 := by
      have : (some (1 : ℚ) : Option ℚ) = some b := hb
      exact (Option.some.inj this).symm
    rw [hb1, hsession]
    norm_num [searchTool]

theorem lookupA_setdefaultA {κ α : Type} [DecidableEq κ] (l : List (κ × α)) (k k' : κ) (v : α) :
    lookupA (setdefaultA l k v) k' =
      if k' = k then some ((lookupA l k).getD v) else lookupA l k' := by
  unfold setdefaultA
  cases hl : lookupA l k with
  | some w =>
      by_cases hk : k' = k
      · subst hk; simp [hl]
      · simp [hk]
  | none =>
      by_cases hk : k' = k
      · subst hk
        simp [hl]
        induction l with
        | nil => simp [lookupA]
        | cons hd tl ih =>
            obtain ⟨k₀, v₀⟩ := hd
            by_cases h0 : k₀ = k'
            · simp [lookupA, h0] at hl
            · simp [lookupA, h0] at hl ⊢
              exact ih hl
      · simp [hk]
        induction l with
        | nil => simp [lookupA, Ne.symm hk]
        | cons hd tl ih =>
            obtain ⟨k₀, v₀⟩ := hd
            by_cases h0 : k₀ = k
            · simp [lookupA, h0] at hl
            · simp [lookupA, h0] at hl ⊢
              by_cases h1 : k₀ = k'
              · simp [h1]
              · simp [h1]
                exact ih hl

/-- C9: re-registering a tool under an existing name replaces the stored
definition, while the global consumption counter of every tool (in
particular the re-registered one, via `setdefault`) and the whole
per-session consumption map are left unchanged — so spend consumed under
the old definition still counts against the ceilings of the new definition. -/
theorem register_replaces_definition_keeps_consumption (r : ToolRegistry)
    (d : ToolDefinition) :
    lookupA (r.register d).definitions d.name = some d ∧
    (r.register d).session_consumption = r.session_consumption ∧
    (∀ n : String, lookupD (r.register d).global_consumption n 0 =
      lookupD r.global_consumption n 0) := by
  refine ⟨?_, rfl, ?_⟩
  · simp [ToolRegistry.register, lookupA_setA_self]
  · intro n
    simp only [ToolRegistry.register, lookupD, lookupA_setdefaultA]
    by_cases hn : n = d.name
    · subst hn
      cases hl : lookupA r.global_consumption d.name with
      | some w => simp [hl]
      | none => simp [hl]
    · simp [hn]

/-- C10: `remaining_budget` reports `none` for the global (resp. session)
component exactly when the corresponding ceiling is absent, and otherwise
`max(ceiling - consumed, 0)`, so a reported remaining amount is never
negative; being a pure query, it leaves the registry untouched. -/
theorem remaining_budget_spec (r : ToolRegistry) (name session_id : String)
    (defn : ToolDefinition) (hdef : lookupA r.definitions name = some defn) :
    ∃ g s, r.remaining_budget name session_id = Except.ok (g, s) ∧
      (g = none ↔ defn.global_budget = none) ∧
      (s = none ↔ defn.per_session_budget = none) ∧
      (∀ b, defn.global_budget = some b →
        g = some (max (b - lookupD r.global_consumption name 0) 0)) ∧
      (∀ b, defn.per_session_budget = some b →
        s = some (max (b - lookupD r.session_consumption (name, session_id) 0) 0)) ∧
      (∀ q, g = some q → 0 ≤ q) ∧
      (∀ q, s = some q → 0 ≤ q) := by
  have hget : r.get name = Except.ok defn := by
    simp [ToolRegistry.get, hdef]
  refine ⟨defn.global_budget.map (fun b => max (b - lookupD r.global_consumption name 0) 0),
      defn.per_session_budget.map
        (fun b => max (b - lookupD r.session_consumption (name, session_id) 0) 0),
      by simp [ToolRegistry.remaining_budget, hget], ?_, ?_, ?_, ?_, ?_, ?_⟩
  · cases defn.global_budget <;> simp
  · cases defn.per_session_budget <;> simp
  · intro b hb; simp [hb]
  · intro b hb; simp [hb]
  · intro q hq
    cases hgb : defn.global_budget with
    | none => simp [hgb] at hq
    | some b =>
        simp [hgb] at hq
        rw [← hq]
        exact le_max_right _ _
  · intro q hq
    cases hsb : defn.per_session_budget with
    | none => simp [hsb] at hq
    | some b =>
        simp [hsb] at hq
        rw [← hq]
        exact le_max_right _ _

/-- Witness for C10 on the `search` tool of the default registry. -/
theorem remaining_budget_spec_witness :
    ∃ g s, default_registry.remaining_budget "search" "sess-9" = Except.ok (g, s) ∧
      (g = none ↔ searchTool.global_budget = none) ∧
      (s = none ↔ searchTool.per_session_budget = none) ∧
      (∀ b, searchTool.global_budget = some b →
        g = some (max (b - lookupD default_registry.global_consumption "search" 0) 0)) ∧
      (∀ b, searchTool.per_session_budget = some b →
        s = some (max (b - lookupD default_registry.session_consumption ("search", "sess-9") 0) 0)) ∧
      (∀ q, g = some q → 0 ≤ q) ∧
      (∀ q, s = some q → 0 ≤ q) :=
  remaining_budget_spec default_registry "search" "sess-9" searchTool rfl

theorem runFromF_compose (st : ToolRegistryF) (start a b : Nat) (st2 : ToolRegistryF)
    (h : runFromF st start a = (st2, none)) :
    runFromF st start (a + b) = runFromF st2 (start + a) b := by
  induction b with
  | zero => simpa [runFromF] using h
  | succ n ih => simp [runFromF, ih, Nat.add_assoc]

/-- Validation of the binary64 simulator: 0.1 + 0.2 evaluates to exactly
0.30000000000000004 = 1351079888211149·2⁻⁵². -/
theorem f64_validation_tenth_plus_fifth :
    F64.eqVal (F64.add ⟨3602879701896397, -55⟩ ⟨3602879701896397, -54⟩)
      ⟨1351079888211149, -52⟩ = true := rfl

set_option maxRecDepth 20000 in
/-- Validation of the binary64 simulator: ten accumulated 0.1 give exactly
0.9999999999999999 = (2⁵³ - 1)·2⁻⁵³, not 1.0. -/
theorem f64_validation_ten_tenths :
    F64.eqVal (F64.sumRepeat ⟨3602879701896397, -55⟩ 10)
      ⟨9007199254740991, -53⟩ = true := rfl

set_option maxRecDepth 120000 in
/-- One hundred accumulated 0.01 reach exactly 1.0000000000000007 =
(2⁵² + 3)·2⁻⁵², which strictly exceeds 1.0 — a schedule that puts 100
calls in one session therefore trips the session ceiling on the 100th. -/
theorem f64_hundred_cents_exceed_one :
    F64.eqVal (F64.sumRepeat f64_0_01 100) ⟨4503599627370499, -52⟩ = true ∧
    F64.ltB f64_1 (F64.sumRepeat f64_0_01 100) = true := ⟨rfl, rfl⟩

set_option maxRecDepth 120000 in
/-- Ninety-nine accumulated 0.01 stay at 0.9900000000000007 ≤ 1.0, so a
session hosting at most 99 calls never trips the session ceiling. -/
theorem f64_ninety_nine_cents_within_one :
    F64.ltB f64_1 (F64.sumRepeat f64_0_01 99) = false := rfl

set_option maxRecDepth 200000 in
theorem searchChunkF1 : runFromF default_registryF 0 99 = (searchRegF1, none) := rfl

set_option maxRecDepth 200000 in
theorem searchChunkF2 : runFromF searchRegF1 99 99 = (searchRegF2, none) := rfl

set_option maxRecDepth 200000 in
theorem searchChunkF3 : runFromF searchRegF2 198 99 = (searchRegF3, none) := rfl

set_option maxRecDepth 200000 in
theorem searchChunkF4 : runFromF searchRegF3 297 99 = (searchRegF4, none) := rfl

set_option maxRecDepth 200000 in
theorem searchChunkF5 : runFromF searchRegF4 396 99 = (searchRegF5, none) := rfl

set_option maxRecDepth 200000 in
theorem searchChunkF6 : runFromF searchRegF5 495 99 = (searchRegF6, none) := rfl

set_option maxRecDepth 200000 in
theorem searchChunkF7 : runFromF searchRegF6 594 99 = (searchRegF7, none) := rfl

set_option maxRecDepth 200000 in
theorem searchChunkF8 : runFromF searchRegF7 693 99 = (searchRegF8, none) := rfl

set_option maxRecDepth 200000 in
theorem searchChunkF9 : runFromF searchRegF8 792 99 = (searchRegF9, none) := rfl

set_option maxRecDepth 200000 in
theorem searchChunkF10 : runFromF searchRegF9 891 99 = (searchRegF10, none) := rfl

set_option maxRecDepth 200000 in
theorem searchChunkF11 : runFromF searchRegF10 990 10 = (searchRegF11, none) := rfl

set_option maxRecDepth 200000 in
theorem searchChunkF12 : runFromF searchRegF10 990 11 =
    (searchRegF11, some (ToolErrorF.globalBudgetExceeded "search" ⟨5635129033747238, -49⟩ f64_10)) := rfl

theorem searchCumF1 : runFromF default_registryF 0 99 = (searchRegF1, none) := searchChunkF1

theorem searchCumF2 : runFromF default_registryF 0 198 = (searchRegF2, none) := by
  rw [show (198 : Nat) = 99 + 99 from rfl,
    runFromF_compose default_registryF 0 99 99 searchRegF1 searchCumF1]
  exact searchChunkF2

theorem searchCumF3 : runFromF default_registryF 0 297 = (searchRegF3, none) := by
  rw [show (297 : Nat) = 198 + 99 from rfl,
    runFromF_compose default_registryF 0 198 99 searchRegF2 searchCumF2]
  exact searchChunkF3

theorem searchCumF4 : runFromF default_registryF 0 396 = (searchRegF4, none) := by
  rw [show (396 : Nat) = 297 + 99 from rfl,
    runFromF_compose default_registryF 0 297 99 searchRegF3 searchCumF3]
  exact searchChunkF4

theorem searchCumF5 : runFromF default_registryF 0 495 = (searchRegF5, none) := by
  rw [show (495 : Nat) = 396 + 99 from rfl,
    runFromF_compose default_registryF 0 396 99 searchRegF4 searchCumF4]
  exact searchChunkF5

theorem searchCumF6 : runFromF default_registryF 0 594 = (searchRegF6, none) := by
  rw [show (594 : Nat) = 495 + 99 from rfl,
    runFromF_compose default_registryF 0 495 99 searchRegF5 searchCumF5]
  exact searchChunkF6

theorem searchCumF7 : runFromF default_registryF 0 693 = (searchRegF7, none) := by
  rw [show (693 : Nat) = 594 + 99 from rfl,
    runFromF_compose default_registryF 0 594 99 searchRegF6 searchCumF6]
  exact searchChunkF7

theorem searchCumF8 : runFromF default_registryF 0 792 = (searchRegF8, none) := by
  rw [show (792 : Nat) = 693 + 99 from rfl,
    runFromF_compose default_registryF 0 693 99 searchRegF7 searchCumF7]
  exact searchChunkF8

theorem searchCumF9 : runFromF default_registryF 0 891 = (searchRegF9, none) := by
  rw [show (891 : Nat) = 792 + 99 from rfl,
    runFromF_compose default_registryF 0 792 99 searchRegF8 searchCumF8]
  exact searchChunkF9

theorem searchCumF10 : runFromF default_registryF 0 990 = (searchRegF10, none) := by
  rw [show (990 : Nat) = 891 + 99 from rfl,
    runFromF_compose default_registryF 0 891 99 searchRegF9 searchCumF9]
  exact searchChunkF10

theorem searchRunF_1000 : searchRunF 1000 = (searchRegF11, none) := by
  unfold searchRunF
  rw [show (1000 : Nat) = 990 + 10 from rfl,
    runFromF_compose default_registryF 0 990 10 searchRegF10 searchCumF10]
  exact searchChunkF11

theorem searchRunF_1001 :
    searchRunF 1001 = (searchRegF11, some (ToolErrorF.globalBudgetExceeded "search"
      ⟨5635129033747238, -49⟩ f64_10)) := by
  unfold searchRunF
  rw [show (1001 : Nat) = 990 + 11 from rfl,
    runFromF_compose default_registryF 0 990 11 searchRegF10 searchCumF10]
  exact searchChunkF12

/-- C3: with `search` registered at `global_budget = 10.0` and
`cost_per_call = 0.01` — binary64 floats, simulated exactly — a run of
`ensure_budget` calls with the default cost and a fresh session every 99
calls (the session ceiling, which binary64 rounding makes a 100th call in
one session trip, then never binds) succeeds on exactly the first 1000
calls, and the 1001st call raises the budget-exceeded failure for the
global ceiling: its prospective total 5635129033747238·2⁻⁴⁹ =
10.009999999999831 exceeds 10.0. -/
theorem search_budget_thousand_calls_binary64 :
    (searchRunF 1000).2 = none ∧
    (searchRunF 1001).2 = some (ToolErrorF.globalBudgetExceeded "search"
      ⟨5635129033747238, -49⟩ f64_10) ∧
    F64.ltB f64_10 ⟨5635129033747238, -49⟩ = true := by
  refine ⟨?_, ?_, rfl⟩
  · rw [searchRunF_1000]
  · rw [searchRunF_1001]

theorem compileMessages_not_hidden (provider : String) (ms : List PromptMessage) :
    compileMessages provider false ms =
      (ms.filter (fun m => !m.hidden)).map (fun m => m.render_for_provider provider) := by
  induction ms with
  | nil => rfl
  | cons m rest ih =>
      by_cases hm : m.hidden <;> simp [compileMessages, hm, ih, List.filter_cons]

theorem compileMessages_all (provider : String) (ms : List PromptMessage) :
    compileMessages provider true ms =
      ms.map (fun m => m.render_for_provider provider) := by
  induction ms with
  | nil => rfl
  | cons m rest ih => simp [compileMessages, ih]

/-- C6: compiling with `includeHidden = false` renders exactly the non-hidden
messages, in their original conversational order, so a hidden message never
appears; compiling with `includeHidden = true` renders every message (hidden
included), also in order. -/
theorem compile_visibility (p : Prompt) (provider : String) :
    p.compile provider false =
      (p.messages.filter (fun m => !m.hidden)).map
        (fun m => m.render_for_provider provider) ∧
    p.compile provider true =
      p.messages.map (fun m => m.render_for_provider provider) :=
  ⟨compileMessages_not_hidden provider p.messages,
   compileMessages_all provider p.messages⟩

/-- C7: serializing a message raises the visibility error exactly when the
message is hidden and the caller did not opt in with `include_hidden=True`;
in every other case — hidden with opt-in, or not hidden — it succeeds. -/
theorem to_dict_visibility (m : PromptMessage) (include_hidden : Bool) :
    ((∃ e, m.to_dict include_hidden = Except.error e) ↔
      m.hidden = true ∧ include_hidden = false) ∧
    ((∃ j, m.to_dict include_hidden = Except.ok j) ↔
      m.hidden = false ∨ include_hidden = true) := by
  unfold PromptMessage.to_dict
  by_cases h : m.hidden <;> cases include_hidden <;> simp [h]

theorem render_anthropic_keys (m : PromptMessage) :
    jGet (m.render_for_provider "anthropic") "role" = some (Json.str m.role.value) ∧
    jGet (m.render_for_provider "anthropic") "content" = some (Json.str m.content) := by
  unfold PromptMessage.render_for_provider
  by_cases hs : truthyOptStr m.scratchpad = true <;>
    simp [hs, setNestedA, setA, lookupA, jGet]

theorem role_value_not_system (r : MessageRole) (h : r ≠ MessageRole.system) :
    (r.value == "system") = false := by
  cases r with
  | system => exact absurd rfl h
  | user => rfl
  | assistant => rfl
  | tool => rfl
  | scratchpad => rfl

theorem anthropicSplit_append (a b : List Json) (sys : Option Json) :
    anthropicSplit (a ++ b) sys =
      ((anthropicSplit b (anthropicSplit a sys).1).1,
       (anthropicSplit a sys).2 ++ (anthropicSplit b (anthropicSplit a sys).1).2) := by
  induction a generalizing sys with
  | nil => simp [anthropicSplit]
  | cons m rest ih =>
      by_cases hc : (isStrVal (jGet m "role") "system" && sys.isNone) = true <;>
        simp [anthropicSplit, hc, ih]

theorem anthropicSplit_no_system (ms : List PromptMessage) :
    ∀ sys, (∀ x ∈ ms, x.role ≠ MessageRole.system) →
      anthropicSplit (ms.map (fun x => x.render_for_provider "anthropic")) sys =
        (sys, ms.map (fun x => Json.obj [("role", Json.str x.role.value),
                                         ("content", Json.str x.content)])) := by
  induction ms with
  | nil => intro sys _; simp [anthropicSplit]
  | cons m rest ih =>
      intro sys h
      have hrole := (render_anthropic_keys m).1
      have hcont := (render_anthropic_keys m).2
      have hnotsys : isStrVal (jGet (m.render_for_provider "anthropic") "role") "system"
          = false := by
        rw [hrole]
        simp only [isStrVal]
        exact role_value_not_system m.role (h m (List.mem_cons_self m rest))
      have hrest : ∀ x ∈ rest, x.role ≠ MessageRole.system :=
        fun x hx => h x (List.mem_cons_of_mem m hx)
      rw [hrole] at hnotsys
      simp [anthropicSplit, hnotsys, ih sys hrest, hrole, hcont]

theorem anthropicSplit_single_system (pre post : List PromptMessage) (m : PromptMessage)
    (hrole : m.role = MessageRole.system)
    (hpre : ∀ x ∈ pre, x.role ≠ MessageRole.system)
    (hpost : ∀ x ∈ post, x.role ≠ MessageRole.system) :
    anthropicSplit ((pre ++ m :: post).map (fun x => x.render_for_provider "anthropic"))
        none =
      (some (Json.str m.content),
       (pre ++ post).map (fun x => Json.obj [("role", Json.str x.role.value),
                                             ("content", Json.str x.content)])) := by
  rw [List.map_append, anthropicSplit_append, anthropicSplit_no_system pre none hpre]
  have hr := (render_anthropic_keys m).1
  have hc := (render_anthropic_keys m).2
  have hsys : isStrVal (jGet (m.render_for_provider "anthropic") "role") "system" = true := by
    rw [hr, hrole]
    rfl
  simp only [List.map_cons, anthropicSplit, hsys, Option.isNone_none, Bool.and_true, if_pos rfl,
    hc]
  rw [anthropicSplit_no_system post (some (Json.str m.content)) hpost]
  simp [List.map_append]

theorem anthropic_single_system_payload_eq (settings : ProviderSettings)
    (p : Prompt) (pre post : List PromptMessage) (m : PromptMessage)
    (hmsgs : p.messages = pre ++ m :: post)
    (hrole : m.role = MessageRole.system)
    (hpre : ∀ x ∈ pre, x.role ≠ MessageRole.system)
    (hpost : ∀ x ∈ post, x.role ≠ MessageRole.system)
    (hcontent : m.content ≠ "") :
    AnthropicAdapter.create_payload settings p none none [] none false [] =
      Json.obj [("model", Json.str settings.model),
                ("messages", Json.arr ((pre ++ post).map
                  (fun x => Json.obj [("role", Json.str x.role.value),
                                      ("content", Json.str x.content)]))),
                ("system", Json.str m.content),
                ("stream", Json.bool false)] := by
  unfold AnthropicAdapter.create_payload
  have hcomp : p.compile "anthropic" true =
      (pre ++ m :: post).map (fun x => x.render_for_provider "anthropic") := by
    rw [Prompt.compile, compileMessages_all, hmsgs]
  rw [hcomp]
  simp only [Option.map_none']
  rw [anthropicSplit_single_system pre post m hrole hpre hpost]
  have htruthy : pyTruthyJson (Json.str m.content) = true := by
    simp [pyTruthyJson, hcontent]
  simp [htruthy, setA, updateA, anthropic_supports_streaming]

/-- C8 (amended): for a prompt holding exactly one system-role message whose
content is non-empty, the Anthropic payload carries that content in its
top-level `system` field and its `messages` array holds no system-role entry.
(When the content is the empty string it is falsy in Python, the `system`
field is omitted, and the claim as stated fails — see the counterexample.) -/
theorem anthropic_single_system_payload (settings : ProviderSettings)
    (p : Prompt) (pre post : List PromptMessage) (m : PromptMessage)
    (hmsgs : p.messages = pre ++ m :: post)
    (hrole : m.role = MessageRole.system)
    (hpre : ∀ x ∈ pre, x.role ≠ MessageRole.system)
    (hpost : ∀ x ∈ post, x.role ≠ MessageRole.system)
    (hcontent : m.content ≠ "") :
    jGet (AnthropicAdapter.create_payload settings p none none [] none false [])
        "system" = some (Json.str m.content) ∧
    ∃ msgs, jGet (AnthropicAdapter.create_payload settings p none none [] none false [])
        "messages" = some (Json.arr msgs) ∧
      ∀ msg ∈ msgs, isStrVal (jGet msg "role") "system" = false := by
  rw [anthropic_single_system_payload_eq settings p pre post m hmsgs hrole hpre hpost hcontent]
  refine ⟨by simp [jGet, lookupA],
    (pre ++ post).map (fun x => Json.obj [("role", Json.str x.role.value),
                                          ("content", Json.str x.content)]),
    by simp [jGet, lookupA], ?_⟩
  intro msg hmsg
  rw [List.mem_map] at hmsg
  obtain ⟨x, hx, hxeq⟩ := hmsg
  rw [← hxeq]
  simp only [jGet, lookupA, if_pos rfl, isStrVal]
  rcases List.mem_append.mp hx with hxpre | hxpost
  · exact role_value_not_system x.role (hpre x hxpre)
  · exact role_value_not_system x.role (hpost x hxpost)

/-- Witness for C8 at a two-message prompt (one user message, one non-empty
system message). -/
theorem anthropic_single_system_payload_witness :
    jGet (AnthropicAdapter.create_payload
        ⟨"claude-3-opus", "key", none, [], none, []⟩
        ⟨[⟨MessageRole.system, "Be brief.", false, none, [], []⟩,
          ⟨MessageRole.user, "hello", false, none, [], []⟩], [], []⟩
        none none [] none false []) "system" = some (Json.str "Be brief.") :=
  (anthropic_single_system_payload
    ⟨"claude-3-opus", "key", none, [], none, []⟩
    ⟨[⟨MessageRole.system, "Be brief.", false, none, [], []⟩,
      ⟨MessageRole.user, "hello", false, none, [], []⟩], [], []⟩
    [] [⟨MessageRole.user, "hello", false, none, [], []⟩]
    ⟨MessageRole.system, "Be brief.", false, none, [], []⟩
    rfl rfl (by simp) (by decide) (by decide)).1

/-- Counterexample to C8 as stated: a prompt whose single system message has
empty content yields a payload with no `system` field at all (the empty
string is falsy), not a `system` field holding that content. -/
theorem anthropic_empty_system_counterexample :
    ¬ (jGet (AnthropicAdapter.create_payload
        ⟨"claude-3-opus", "key", none, [], none, []⟩
        ⟨[⟨MessageRole.system, "", false, none, [], []⟩], [], []⟩
        none none [] none false []) "system" = some (Json.str "")) := by
  intro h
  have hnone : jGet (AnthropicAdapter.create_payload
      ⟨"claude-3-opus", "key", none, [], none, []⟩
      ⟨[⟨MessageRole.system, "", false, none, [], []⟩], [], []⟩
      none none [] none false []) "system" = none := rfl
  rw [hnone] at h
  exact Option.noConfusion h

theorem pyIntTrunc_eq_floor (q : ℚ) (h : 0 ≤ q) : pyIntTrunc q = Int.floor q := by
  simp [pyIntTrunc, not_lt.mpr h]

/-- C5 (amended): the capacity the bucket enforces is the configured burst
when it is set and non-zero, and defaults to the rate-per-minute when the
burst is unset — or when it is zero, since the Python `or` treats 0 as falsy
(the correction to the claim); the initial token count is that capacity;
each acquisition attempt lazily refills by floor(elapsed × rate / 60)
tokens, capped at the capacity; and a successful acquire takes exactly one
token from the refilled count, so the count never exceeds the capacity. -/
theorem token_bucket_spec (b : AsyncTokenBucket) (now : ℚ)
    (hmono : b.updated_at ≤ now)
    (hrate : 0 ≤ b.limit.rate_per_minute)
    (hcap : b.tokens ≤ b.limit.burst_or_rate) :
    (∀ r : ℤ, (RateLimit.post_init ⟨r, none⟩).burst_or_rate = r) ∧
    (∀ r bu : ℤ, bu ≠ 0 → (RateLimit.post_init ⟨r, some bu⟩).burst_or_rate = bu) ∧
    (∀ limit now0, (AsyncTokenBucket.init limit now0).tokens = limit.burst_or_rate) ∧
    ((b.refill now).tokens =
      if 0 < Int.floor ((now - b.updated_at) * ((b.limit.rate_per_minute : ℚ) / 60)) then
        min b.limit.burst_or_rate
          (b.tokens + Int.floor ((now - b.updated_at) * ((b.limit.rate_per_minute : ℚ) / 60)))
      else b.tokens) ∧
    (b.refill now).tokens ≤ b.limit.burst_or_rate ∧
    (∀ b2, b.acquireOnce now = some b2 →
      b2.tokens = (b.refill now).tokens - 1 ∧ b2.tokens ≤ b.limit.burst_or_rate) := by
  have hdiff : 0 ≤ now - b.updated_at := by linarith
  have hrateq : 0 ≤ ((b.limit.rate_per_minute : ℚ) / 60) := by
    apply div_nonneg
    · exact_mod_cast hrate
    · norm_num
  have hprod : 0 ≤ (now - b.updated_at) * ((b.limit.rate_per_minute : ℚ) / 60) :=
    mul_nonneg hdiff hrateq
  have htr := pyIntTrunc_eq_floor _ hprod
  have hrefill : (b.refill now).tokens =
      if 0 < Int.floor ((now - b.updated_at) * ((b.limit.rate_per_minute : ℚ) / 60)) then
        min b.limit.burst_or_rate
          (b.tokens + Int.floor ((now - b.updated_at) * ((b.limit.rate_per_minute : ℚ) / 60)))
      else b.tokens := by
    unfold AsyncTokenBucket.refill
    by_cases hpos :
        0 < Int.floor ((now - b.updated_at) * ((b.limit.rate_per_minute : ℚ) / 60)) <;>
      simp [htr, hpos]
  have hrefill_le : (b.refill now).tokens ≤ b.limit.burst_or_rate := by
    rw [hrefill]
    by_cases hpos :
        0 < Int.floor ((now - b.updated_at) * ((b.limit.rate_per_minute : ℚ) / 60))
    · simp only [if_pos hpos]
      exact min_le_left _ _
    · simpa [hpos] using hcap
  refine ⟨?_, ?_, fun limit now0 => rfl, hrefill, hrefill_le, ?_⟩
  · intro r
    simp [RateLimit.post_init, RateLimit.burst_or_rate]
  · intro r bu hbu
    simp [RateLimit.post_init, RateLimit.burst_or_rate, hbu]
  · intro b2 hb2
    unfold AsyncTokenBucket.acquireOnce at hb2
    by_cases hpos : 0 < (b.refill now).tokens
    · simp only [if_pos hpos] at hb2
      have hb2' := Option.some.inj hb2
      constructor
      · rw [← hb2']
      · rw [← hb2']
        have := hrefill_le
        simp only []
        omega
    · simp [if_neg hpos] at hb2

/-- Witness for C5: a bucket at rate 60/min, 5 tokens, 2 seconds after its
last update, stays within its capacity after a refill attempt. -/
theorem token_bucket_spec_witness :
    (AsyncTokenBucket.refill ⟨RateLimit.post_init ⟨60, none⟩, 5, 0⟩ 2).tokens ≤
      (⟨RateLimit.post_init ⟨60, none⟩, 5, 0⟩ : AsyncTokenBucket).limit.burst_or_rate :=
  (token_bucket_spec ⟨RateLimit.post_init ⟨60, none⟩, 5, 0⟩ 2
    (by norm_num) (by norm_num [RateLimit.post_init]) (by norm_num [RateLimit.post_init,
      RateLimit.burst_or_rate])).2.2.2.2.1

/-- Counterexample to C5 as stated: with burst configured to 0 the claimed
capacity is 0, but the `or`-fallback in the code makes the enforced capacity the
rate (here 5), and the bucket even starts with 5 tokens — exceeding the
claimed capacity. -/
theorem token_bucket_zero_burst_counterexample :
    (RateLimit.post_init ⟨5, some 0⟩).burst_or_rate = 5 ∧
    ¬ ((RateLimit.post_init ⟨5, some 0⟩).burst_or_rate = 0) ∧
    (AsyncTokenBucket.init (RateLimit.post_init ⟨5, some 0⟩) 0).tokens = 5 := by
  refine ⟨rfl, ?_, rfl⟩
  intro h
  rw [show (RateLimit.post_init ⟨5, some 0⟩).burst_or_rate = 5 from rfl] at h
  exact absurd h (by norm_num)

/-- C4: on a non-streaming request with caching enabled whose key has a live
cache entry, the router returns the stored raw payload decoded and
normalized to the canonical response shape, performs no adapter dispatch,
and consumes no rate-limiter token: the entire router state, token bucket
included, is unchanged. -/
theorem aroute_cache_hit_no_dispatch (dispatch : Json → Json) (provider : String)
    (key : String) (payload : Json) (ttl now : ℚ) (st : RouterState) (raw : Json)
    (hhit : (InMemoryCache.fetch st.cache key now).1 = some raw) :
    aroute_nonstream dispatch provider true key payload ttl now st =
      { response := coerce_response provider raw, state := st, dispatched := false } := by
  have hstore : (InMemoryCache.fetch st.cache key now).2 = st.cache := by
    unfold InMemoryCache.fetch at hhit ⊢
    cases hl : lookupA st.cache key with
    | none => simp [hl] at hhit
    | some entry =>
        obtain ⟨v, expires_at⟩ := entry
        cases expires_at with
        | none => simp [hl]
        | some t =>
            simp only [hl] at hhit ⊢
            by_cases ht : t < now
            · simp [ht] at hhit
            · simp [ht]
  unfold aroute_nonstream
  simp only [if_pos trivial, hhit, hstore]

/-- Witness for C4 at a concrete router state with one live cache entry and
a configured token bucket. -/
theorem aroute_cache_hit_no_dispatch_witness :
    aroute_nonstream (fun j => j) "openai" true "key-1" Json.null 300 7
        ⟨[("key-1", (Json.str "cached", none))],
         some ⟨RateLimit.post_init ⟨60, none⟩, 3, 0⟩⟩ =
      { response := coerce_response "openai" (Json.str "cached"),
        state := ⟨[("key-1", (Json.str "cached", none))],
                  some ⟨RateLimit.post_init ⟨60, none⟩, 3, 0⟩⟩,
        dispatched := false } :=
  aroute_cache_hit_no_dispatch (fun j => j) "openai" "key-1" Json.null 300 7
    ⟨[("key-1", (Json.str "cached", none))],
     some ⟨RateLimit.post_init ⟨60, none⟩, 3, 0⟩⟩
    (Json.str "cached") rfl
